import Mathlib

/-!
Shallow embedding of the ExTL value-or-error containers:
`extl::expected<T, E>` from src/ExTL/include/extl/expected/expected.hpp,
its `expected<void, E>` specialization, `extl::unexpected<E>` from
src/ExTL/include/extl/expected/unexpected.hpp, `extl::status<E>` from
src/include/result/status.hpp, and the legacy non-monadic
`extl::expected` from src/include/ExTL/expected.h.

Each C++ object is a union of two members tagged by one boolean.  A state
is modelled by the tag together with one `Option` per union member that
records whether the member currently holds a constructed object and, if
so, its value.  Reading a union member whose lifetime has ended is
undefined behaviour in the source (guarded there by `assert`); such reads
are modelled by the `deadRead` states and by `none` results of the
accessor functions, and are never reached from well-formed states.

Move semantics: moving out of a payload transfers its contents and leaves
the source payload constructed but holding unspecified "moved-from"
contents.  The residue is modelled by explicit parameter functions
`mvT : T → T` and `mvE : E → E` describing what a move leaves behind;
the object constructed FROM the moved payload receives the original
contents, exactly as C++ move construction of a value type does.

The four value-category overloads of each combinator (`&`, `const&`,
`&&`, `const&&`) return equal values in this value-semantics model; they
differ only in the residue left inside the receiver, which is modelled
separately where a claim is about the residue (move construction and the
rvalue `value_or`/`error_or` overloads).
-/

namespace ExTL

/-- Model of `extl::unexpected<E>` (unexpected.hpp): holds exactly one
constructed error value, produced by its converting or in-place
constructors. -/
structure Unexpected (E : Type) where
  error : E
  deriving Repr, DecidableEq

/-- Model of the storage state of `extl::expected<T, E>` (expected.hpp,
lines 982-988): the union member `_value` (live iff `valueLive` is
`some`), the union member `_error` (live iff `errorLive` is `some`), and
the tag `_has_value`. -/
structure Expected (T E : Type) where
  hasValue : Bool
  valueLive : Option T
  errorLive : Option E
  deriving Repr, DecidableEq

namespace Expected

variable {T E U G : Type}

/-- Well-formedness of an `expected` state: the live union member is
exactly the one the tag designates (spec invariants I1 and I2). -/
def wf (r : Expected T E) : Bool :=
  if r.hasValue then r.valueLive.isSome && r.errorLive.isNone
  else r.errorLive.isSome && r.valueLive.isNone

/-- Unspecified state produced by a code path that reads a union member
whose lifetime has ended (undefined behaviour in the source); never
reached from well-formed states. -/
def deadRead : Expected T E := ⟨false, none, none⟩

/-- Default constructor (expected.hpp lines 39-41): value-initializes
`_value` with `T()` (passed here as `d`) and sets the tag. -/
def mkDefault (d : T) : Expected T E := ⟨true, some d, none⟩

/-- Constructor from a value (expected.hpp lines 180-188,
`expected(U&& v)`): direct-initializes `_value` from the argument and
sets the tag; the `T`-from-`U` conversion has already been applied to
produce `v`. -/
def ofValue (v : T) : Expected T E := ⟨true, some v, none⟩

/-- Constructor from `const unexpected<G>&` or `unexpected<G>&&`
(expected.hpp lines 201-220): direct-initializes `_error` from
`e.error()` via the `E`-from-`G` construction `conv` and clears the
tag. -/
def ofUnexpectedConv (conv : G → E) (u : Unexpected G) : Expected T E :=
  ⟨false, none, some (conv u.error)⟩

/-- Constructor from `unexpected<E>` with the identity `E`-from-`E`
construction (the same-type case of lines 201-220). -/
def ofUnexpected (u : Unexpected E) : Expected T E :=
  ⟨false, none, some u.error⟩

/-- In-place value constructor (expected.hpp lines 234-237,
`expected(in_place_t, Args...)`): constructs `_value` from the arguments
(passed here already combined into the constructed `T`). -/
def inPlaceCtor (v : T) : Expected T E := ⟨true, some v, none⟩

/-- In-place error constructor (expected.hpp lines 251-254,
`expected(unexpect_t, Args...)`): constructs `_error` from the
arguments. -/
def unexpectCtor (e : E) : Expected T E := ⟨false, none, some e⟩

/-- Copy constructor (expected.hpp lines 49-58): copies the tag from
`other.has_value()` and copy-constructs the union member that tag
designates from the corresponding member of `other`. -/
def copyCtor (o : Expected T E) : Expected T E :=
  if o.hasValue then ⟨true, o.valueLive, none⟩
  else ⟨false, none, o.errorLive⟩

/-- Move constructor (expected.hpp lines 66-75): copies the tag and
move-constructs the designated member from `std::move` of the source
member.  Returns the pair (new object, source after the move): the new
object receives the payload contents, the source keeps the same tag and
a constructed payload with moved-from contents (`mvT` resp. `mvE`). -/
def moveCtor (mvT : T → T) (mvE : E → E) (o : Expected T E) :
    Expected T E × Expected T E :=
  if o.hasValue then
    (⟨true, o.valueLive, none⟩, ⟨o.hasValue, o.valueLive.map mvT, o.errorLive⟩)
  else
    (⟨false, none, o.errorLive⟩, ⟨o.hasValue, o.valueLive, o.errorLive.map mvE⟩)

/-- Converting copy constructor (expected.hpp lines 93-119): copies the
tag and constructs the matching member through the `T`-from-`U` and
`E`-from-`G` constructions `cT`, `cE`. -/
def convCopyCtor (cT : U → T) (cE : G → E) (o : Expected U G) : Expected T E :=
  if o.hasValue then ⟨true, o.valueLive.map cT, none⟩
  else ⟨false, none, o.errorLive.map cE⟩

/-- Converting move constructor (expected.hpp lines 137-163): same
resulting value as the converting copy; the source keeps its tag and a
moved-from payload.  Returns (new object, source after the move). -/
def convMoveCtor (cT : U → T) (cE : G → E) (mvU : U → U) (mvG : G → G)
    (o : Expected U G) : Expected T E × Expected U G :=
  if o.hasValue then
    (⟨true, o.valueLive.map cT, none⟩, ⟨o.hasValue, o.valueLive.map mvU, o.errorLive⟩)
  else
    (⟨false, none, o.errorLive.map cE⟩, ⟨o.hasValue, o.valueLive, o.errorLive.map mvG⟩)

/-- Destructor (expected.hpp lines 261-268): destroys `_value` when the
tag is set, `_error` otherwise.  Returns (destroys `_value`?, destroys
`_error`?). -/
def dtorDestroys (r : Expected T E) : Bool × Bool :=
  if r.hasValue then (true, false) else (false, true)

/-- Value accessors `operator*`, `operator->` and `value()` (expected.hpp
lines 275-374): assert `has_value()`, then return the `_value` member.
A violated assertion (tag says error) is modelled as `none`. -/
def valueAcc (r : Expected T E) : Option T :=
  if r.hasValue then r.valueLive else none

/-- Error accessor `error()` (expected.hpp lines 381-411): asserts
`not has_value()`, then returns the `_error` member; a violated
assertion is modelled as `none`. -/
def errAcc (r : Expected T E) : Option E :=
  if r.hasValue then none else r.errorLive

/-- Member `value_or` for `const&` receivers (expected.hpp lines
424-431): returns `**this` when the tag is set, else the fallback
converted by `static_cast<T>` (the conversion `conv`). -/
def value_or (conv : U → T) (r : Expected T E) (d : U) : Option T :=
  if r.hasValue then r.valueAcc else some (conv d)

/-- Member `value_or` for `&&` receivers (expected.hpp lines 443-450):
returns `std::move(**this)` when the tag is set — the payload contents
move into the return value and the stored payload is left moved-from —
else the converted fallback.  Returns (result, receiver after the
call). -/
def value_or_rv (mvT : T → T) (conv : U → T) (r : Expected T E) (d : U) :
    Option T × Expected T E :=
  if r.hasValue then (r.valueAcc, ⟨r.hasValue, r.valueLive.map mvT, r.errorLive⟩)
  else (some (conv d), r)

/-- Member `error_or` for `const&` receivers (expected.hpp lines
463-470): returns the converted fallback when the tag is set, else
`error()`. -/
def error_or (conv : G → E) (r : Expected T E) (d : G) : Option E :=
  if r.hasValue then some (conv d) else r.errAcc

/-- Member `error_or` for `&&` receivers (expected.hpp lines 482-489):
returns the converted fallback when the tag is set, else
`std::move(error())`, leaving the stored error moved-from.  Returns
(result, receiver after the call). -/
def error_or_rv (mvE : E → E) (conv : G → E) (r : Expected T E) (d : G) :
    Option E × Expected T E :=
  if r.hasValue then (some (conv d), r)
  else (r.errAcc, ⟨r.hasValue, r.valueLive, r.errorLive.map mvE⟩)

/-- Member `and_then` (expected.hpp lines 506-518 and the three other
value-category overloads, whose resulting values coincide): when the tag
is set, invoke `f` on the value and return its result; otherwise build
`U(unexpect, error())` from the current error without invoking `f`. -/
def and_then (r : Expected T E) (f : T → Expected U E) : Expected U E :=
  if r.hasValue then
    match r.valueLive with
    | some v => f v
    | none => deadRead
  else
    match r.errorLive with
    | some e => unexpectCtor e
    | none => deadRead

/-- Member `or_else` (expected.hpp lines 620-632 and the three other
value-category overloads): when the tag is set, build `G(in_place,
**this)` from the current value without invoking `f`; otherwise invoke
`f` on the error and return its result. -/
def or_else (r : Expected T E) (f : E → Expected T G) : Expected T G :=
  if r.hasValue then
    match r.valueLive with
    | some v => inPlaceCtor v
    | none => deadRead
  else
    match r.errorLive with
    | some e => f e
    | none => deadRead

/-- Member `transform` for non-void `U` (expected.hpp lines 736-759 and
the three other value-category overloads): when the tag is set, return
`expected<U, E>(in_place, f(value))`; otherwise return
`expected<U, E>(unexpect, error())` without invoking `f`. -/
def transform (r : Expected T E) (f : T → U) : Expected U E :=
  if r.hasValue then
    match r.valueLive with
    | some v => inPlaceCtor (f v)
    | none => deadRead
  else
    match r.errorLive with
    | some e => unexpectCtor e
    | none => deadRead

/-- Member `transform_error` (expected.hpp lines 893-903 and the three
other value-category overloads): when the tag is set, return
`expected<T, G>(in_place, **this)` without invoking `f`; otherwise
return `expected<T, G>(unexpect, f(error()))`. -/
def transform_error (r : Expected T E) (f : E → G) : Expected T G :=
  if r.hasValue then
    match r.valueLive with
    | some v => inPlaceCtor v
    | none => deadRead
  else
    match r.errorLive with
    | some e => unexpectCtor (f e)
    | none => deadRead

end Expected

/-- Model of the storage state of the specialization
`extl::expected<void, E>` (expected.hpp lines 990-1034): the union of
the zero-sized `dummy_t` and the member `_error`, plus the tag
`_has_value`.  The ok state constructs and destroys no payload, so only
the `_error` member is tracked. -/
structure ExpectedVoid (E : Type) where
  hasValue : Bool
  errorLive : Option E
  deriving Repr, DecidableEq

namespace ExpectedVoid

variable {E G U : Type}

/-- Well-formedness: the tag is clear exactly when `_error` is live; in
the ok state no payload is constructed. -/
def wf (r : ExpectedVoid E) : Bool :=
  if r.hasValue then r.errorLive.isNone else r.errorLive.isSome

/-- Unspecified state produced by reading the dead `_error` member;
never reached from well-formed states. -/
def deadRead : ExpectedVoid E := ⟨false, none⟩

/-- Default constructor (expected.hpp lines 993-994): ok state, no
payload. -/
def mkDefault : ExpectedVoid E := ⟨true, none⟩

/-- In-place error constructor (expected.hpp lines 996-999,
`expected(unexpect_t, Args...)`). -/
def unexpectCtor (e : E) : ExpectedVoid E := ⟨false, some e⟩

/-- Destructor (expected.hpp lines 1001-1006): destroys `_error` exactly
when the tag is clear; returns whether `_error` is destroyed. -/
def dtorDestroysError (r : ExpectedVoid E) : Bool := !r.hasValue

/-- Error accessor `error()` (expected.hpp lines 1011-1026): asserts
`not has_value()`; a violated assertion is modelled as `none`. -/
def errAcc (r : ExpectedVoid E) : Option E :=
  if r.hasValue then none else r.errorLive

/-- Modelled from the spec: the member `and_then` of
`expected<void, E>` is absent from the sources under src (the tests in
src/test/expected/expected.cpp call it).  Per spec section 4.2,
`andThen` invokes its zero-argument function exactly when the container
is ok and returns its result; otherwise it propagates the current error
into the new container without invoking the function. -/
def and_then (r : ExpectedVoid E) (f : Unit → ExpectedVoid E) : ExpectedVoid E :=
  if r.hasValue then f ()
  else
    match r.errorLive with
    | some e => unexpectCtor e
    | none => deadRead

/-- Modelled from the spec: the member `transform` of
`expected<void, E>` is absent from the sources under src (the tests call
it).  Per spec section 4.2, `transform` invokes its zero-argument
function when ok and wraps the result as a new ok container; otherwise
it propagates the error without invoking the function. -/
def transform (r : ExpectedVoid E) (f : Unit → U) : Expected U E :=
  if r.hasValue then Expected.inPlaceCtor (f ())
  else
    match r.errorLive with
    | some e => Expected.unexpectCtor e
    | none => Expected.deadRead

/-- Modelled from the spec: the member `or_else` of `expected<void, E>`
is absent from the sources under src (the tests call it).  Per spec
sections 4.1 and 4.2, `orElse` short-circuits to an ok container when
already ok, and otherwise invokes its function on the error and returns
its result. -/
def or_else (r : ExpectedVoid E) (f : E → ExpectedVoid E) : ExpectedVoid E :=
  if r.hasValue then mkDefault
  else
    match r.errorLive with
    | some e => f e
    | none => deadRead

/-- Modelled from the spec: the member `transform_error` of
`expected<void, E>` is absent from the sources under src (the tests call
it).  Per spec sections 4.1 and 4.2, `transformError` propagates the ok
state unchanged without invoking its function, and otherwise wraps
`f(error)` as the error of the new container. -/
def transform_error (r : ExpectedVoid E) (f : E → G) : ExpectedVoid G :=
  if r.hasValue then mkDefault
  else
    match r.errorLive with
    | some e => unexpectCtor (f e)
    | none => deadRead

end ExpectedVoid

/-- Member `transform` of `expected<T, E>` when the supplied function
returns void (expected.hpp lines 750-753, 790-792 and the corresponding
branches of the other overloads): when the tag is set, invoke `f` on the
value and return `expected<void, E>()`; otherwise return
`expected<void, E>(unexpect, error())` without invoking `f`. -/
def Expected.transformVoid {T E : Type} (r : Expected T E) (f : T → Unit) :
    ExpectedVoid E :=
  if r.hasValue then
    match r.valueLive with
    | some v =>
      let _invoked := f v
      ExpectedVoid.mkDefault
    | none => ExpectedVoid.deadRead
  else
    match r.errorLive with
    | some e => ExpectedVoid.unexpectCtor e
    | none => ExpectedVoid.deadRead

/-- Model of the storage state of `extl::status<E>`
(src/include/result/status.hpp lines 79-88): the union of the zero-sized
`dummy_t` and the member `_error`, plus the flag `_has_error`. -/
structure Status (E : Type) where
  hasError : Bool
  errorLive : Option E
  deriving Repr, DecidableEq

namespace Status

variable {E U : Type}

/-- Well-formedness: `_error` is live exactly when `_has_error` is set. -/
def wf (s : Status E) : Bool :=
  if s.hasError then s.errorLive.isSome else s.errorLive.isNone

/-- Default constructor (status.hpp line 31): initializes the dummy
member and clears `_has_error`. -/
def mkDefault : Status E := ⟨false, none⟩

/-- Constructor from `nullerr_t` (status.hpp line 32): identical to the
default constructor. -/
def ofNullerr : Status E := ⟨false, none⟩

/-- Observer `ok()` (status.hpp line 74): true iff `_has_error` is
clear. -/
def ok (s : Status E) : Bool := !s.hasError

/-- Modelled from the spec: the direct-value constructor
`status(U&& other)` is only declared in status.hpp (lines 66-67); its
body is not under src.  Per its documentation comment and spec section
4.4, it direct-initializes the contained error from the argument (the
`E`-from-`U` construction `conv`), producing the error state. -/
def ofError (conv : U → E) (u : U) : Status E := ⟨true, some (conv u)⟩

/-- Modelled from the spec: the in-place constructor
`status(in_place_t, Args...)` is only declared in status.hpp (lines
58-59); per its documentation comment it direct-initializes the
contained error from the arguments, producing the error state. -/
def inPlaceCtor (e : E) : Status E := ⟨true, some e⟩

/-- Error accessor `error()` (status.hpp lines 76-77): asserts
`not ok()`, then returns `_error`; a violated assertion is modelled as
`none`. -/
def errAcc (s : Status E) : Option E :=
  if s.ok then none else s.errorLive

/-- Destructor (status.hpp line 71): destroys `_error` exactly when
`_has_error` is set; returns whether `_error` is destroyed. -/
def dtorDestroysError (s : Status E) : Bool := s.hasError

end Status

/-- Model of the storage state of the legacy non-monadic
`extl::expected<T, E, H>` (src/include/ExTL/expected.h lines 104-109):
the tag `_has_value` and the union of `_value` and `_error`. -/
structure LegacyExpected (T E : Type) where
  hasValue : Bool
  valueLive : Option T
  errorLive : Option E
  deriving Repr, DecidableEq

/-- Outcome of the legacy move assignment: the target after the
assignment, the source after the assignment, and whether the
destructor of the target's previous `_value` resp. `_error` payload was
run during the assignment. -/
structure LegacyAssignOutcome (T E : Type) where
  target : LegacyExpected T E
  srcAfter : LegacyExpected T E
  destroyedOldValue : Bool
  destroyedOldError : Bool
  deriving Repr, DecidableEq

namespace LegacyExpected

variable {T E : Type}

/-- Well-formedness of a legacy state: the live union member is exactly
the one the tag designates. -/
def wf (r : LegacyExpected T E) : Bool :=
  if r.hasValue then r.valueLive.isSome && r.errorLive.isNone
  else r.errorLive.isSome && r.valueLive.isNone

/-- Legacy move assignment (expected.h lines 59-66).  When
`this != &other` (modelled by `selfAssign = false`): overwrite
`_has_value` with the source tag and placement-construct the source's
payload into the matching member of the target's storage — a
placement-new into the union ends the previous occupant's lifetime
without running any destructor, so both destroyed-flags are `false`.
When `this == &other` (`selfAssign = true`, so `src` is the target
itself): the body is skipped and the object is returned unchanged. -/
def moveAssign (mvT : T → T) (mvE : E → E) (tgt src : LegacyExpected T E)
    (selfAssign : Bool) : LegacyAssignOutcome T E :=
  if selfAssign then ⟨tgt, tgt, false, false⟩
  else if src.hasValue then
    ⟨⟨true, src.valueLive, none⟩, ⟨src.hasValue, src.valueLive.map mvT, src.errorLive⟩,
     false, false⟩
  else
    ⟨⟨false, none, src.errorLive⟩, ⟨src.hasValue, src.valueLive, src.errorLive.map mvE⟩,
     false, false⟩

end LegacyExpected

/-- Capability flags that instantiate the `requires` clause of the
converting constructors of `expected<T, E>` from `expected<U, G>`
(expected.hpp lines 93-112 for the copy form and 137-156 for the move
form).  Each field is one of the compile-time predicates the clause
queries, for a fixed choice of `T`, `E`, `U`, `G`. -/
structure ConvCtorCaps where
  tIsBool : Bool
  tCtorFromU : Bool
  eCtorFromG : Bool
  tCtorFromSrcRef : Bool
  tCtorFromSrcVal : Bool
  tCtorFromSrcCRef : Bool
  tCtorFromSrcCVal : Bool
  tConvFromSrcRef : Bool
  tConvFromSrcVal : Bool
  tConvFromSrcCRef : Bool
  tConvFromSrcCVal : Bool
  unexpCtorFromSrcRef : Bool
  unexpCtorFromSrcVal : Bool
  unexpCtorFromSrcCRef : Bool
  unexpCtorFromSrcCVal : Bool
  deriving Repr, DecidableEq

namespace ConvCtorCaps

/-- Whether `T` is constructible from, or the source `expected<U, G>` is
convertible to `T`, in any of the four cv-ref forms the clause checks
(the "T usable from the whole source object" ambiguity). -/
def tFromWholeSource (c : ConvCtorCaps) : Bool :=
  c.tCtorFromSrcRef || c.tCtorFromSrcVal || c.tCtorFromSrcCRef || c.tCtorFromSrcCVal ||
  c.tConvFromSrcRef || c.tConvFromSrcVal || c.tConvFromSrcCRef || c.tConvFromSrcCVal

/-- Whether `unexpected<E>` is constructible from the whole source
object in any of the four cv-ref forms the clause checks. -/
def unexpFromWholeSource (c : ConvCtorCaps) : Bool :=
  c.unexpCtorFromSrcRef || c.unexpCtorFromSrcVal ||
  c.unexpCtorFromSrcCRef || c.unexpCtorFromSrcCVal

/-- Direct transcription of the `requires` clause shared by both
converting constructors (expected.hpp lines 95-112 and 139-156): the
element-wise constructibility requirements, then the bool-exempted
block of eight negated whole-source checks for `T`, then the four
negated whole-source checks for `unexpected<E>`. -/
def enabled (c : ConvCtorCaps) : Bool :=
  c.tCtorFromU && c.eCtorFromG &&
  (c.tIsBool ||
    (!c.tCtorFromSrcRef && !c.tCtorFromSrcVal &&
     !c.tCtorFromSrcCRef && !c.tCtorFromSrcCVal &&
     !c.tConvFromSrcRef && !c.tConvFromSrcVal &&
     !c.tConvFromSrcCRef && !c.tConvFromSrcCVal)) &&
  (!c.unexpCtorFromSrcRef && !c.unexpCtorFromSrcVal &&
   !c.unexpCtorFromSrcCRef && !c.unexpCtorFromSrcCVal)

end ConvCtorCaps

/-- C1: for every `expected<T, E>` state, the tag `_has_value` and the
live union payload always agree — every constructor constructs exactly
the payload matching the tag it sets (the state it produces is
well-formed), copy and move construction preserve well-formedness, and
on a well-formed state the destructor runs exactly the destructor of the
payload the tag designates (`T` when the tag says ok, `E` otherwise),
destroying exactly one payload. -/
theorem C1_tag_payload_agreement :
    (∀ (T E : Type) (d : T), (Expected.mkDefault d : Expected T E).wf = true) ∧
    (∀ (T E : Type) (v : T), (Expected.ofValue v : Expected T E).wf = true) ∧
    (∀ (T E G : Type) (conv : G → E) (u : Unexpected G),
      (Expected.ofUnexpectedConv conv u : Expected T E).wf = true) ∧
    (∀ (T E : Type) (v : T), (Expected.inPlaceCtor v : Expected T E).wf = true) ∧
    (∀ (T E : Type) (e : E), (Expected.unexpectCtor e : Expected T E).wf = true) ∧
    (∀ (T E : Type) (o : Expected T E), o.wf = true →
      (Expected.copyCtor o).wf = true ∧ (Expected.copyCtor o).hasValue = o.hasValue) ∧
    (∀ (T E : Type) (mvT : T → T) (mvE : E → E) (o : Expected T E), o.wf = true →
      (o.moveCtor mvT mvE).1.wf = true ∧ (o.moveCtor mvT mvE).2.wf = true) ∧
    (∀ (T E : Type) (r : Expected T E), r.wf = true →
      ((r.hasValue = true ∧ r.dtorDestroys = (true, false) ∧
          r.valueLive.isSome = true ∧ r.errorLive = none) ∨
       (r.hasValue = false ∧ r.dtorDestroys = (false, true) ∧
          r.errorLive.isSome = true ∧ r.valueLive = none))) ∧
    (∀ (T E U : Type) (r : Expected T E) (f : T → Expected U E), r.wf = true →
      (∀ x : T, (f x).wf = true) → (r.and_then f).wf = true) ∧
    (∀ (T E G : Type) (r : Expected T E) (f : E → Expected T G), r.wf = true →
      (∀ x : E, (f x).wf = true) → (r.or_else f).wf = true) ∧
    (∀ (T E U : Type) (r : Expected T E) (f : T → U), r.wf = true →
      (r.transform f).wf = true) ∧
    (∀ (T E G : Type) (r : Expected T E) (f : E → G), r.wf = true →
      (r.transform_error f).wf = true) := by
  refine ⟨?_, ?_, ?_, ?_, ?_, ?_, ?_, ?_, ?_, ?_, ?_, ?_⟩
  · intro T E d
    simp [Expected.mkDefault, Expected.wf]
  · intro T E v
    simp [Expected.ofValue, Expected.wf]
  · intro T E G conv u
    simp [Expected.ofUnexpectedConv, Expected.wf]
  · intro T E v
    simp [Expected.inPlaceCtor, Expected.wf]
  · intro T E e
    simp [Expected.unexpectCtor, Expected.wf]
  · intro T E o h
    obtain ⟨hv, vl, el⟩ := o
    cases hv <;> simp_all [Expected.wf, Expected.copyCtor]
  · intro T E mvT mvE o h
    obtain ⟨hv, vl, el⟩ := o
    cases hv <;> cases vl <;> cases el <;>
      simp_all [Expected.wf, Expected.moveCtor]
  · intro T E r h
    obtain ⟨hv, vl, el⟩ := r
    cases hv <;> cases vl <;> cases el <;>
      simp_all [Expected.wf, Expected.dtorDestroys]
  · intro T E U r f h hf
    obtain ⟨hv, vl, el⟩ := r
    cases hv <;> cases vl <;> cases el <;>
      simp_all [Expected.wf, Expected.and_then, Expected.unexpectCtor]
  · intro T E G r f h hf
    obtain ⟨hv, vl, el⟩ := r
    cases hv <;> cases vl <;> cases el <;>
      simp_all [Expected.wf, Expected.or_else, Expected.inPlaceCtor]
  · intro T E U r f h
    obtain ⟨hv, vl, el⟩ := r
    cases hv <;> cases vl <;> cases el <;>
      simp_all [Expected.wf, Expected.transform, Expected.inPlaceCtor,
        Expected.unexpectCtor]
  · intro T E G r f h
    obtain ⟨hv, vl, el⟩ := r
    cases hv <;> cases vl <;> cases el <;>
      simp_all [Expected.wf, Expected.transform_error, Expected.inPlaceCtor,
        Expected.unexpectCtor]

/-- Witness for C1 at a concrete well-formed state. -/
theorem C1_tag_payload_agreement_witness :
    (Expected.copyCtor (Expected.ofValue 3 : Expected Nat Nat)).wf = true ∧
    (Expected.copyCtor (Expected.ofValue 3 : Expected Nat Nat)).hasValue =
      (Expected.ofValue 3 : Expected Nat Nat).hasValue :=
  C1_tag_payload_agreement.2.2.2.2.2.1 Nat Nat (Expected.ofValue 3) rfl

/-- C2: for every value `v`, the `expected` constructed from `v` is in
the ok state and its `value()` equals `v`; for every error `e`, the
`expected` constructed from `unexpected(e)` has `has_value() = false`
and its `error()` equals `e`. -/
theorem C2_value_error_construction :
    ∀ (T E : Type) (v : T) (e : E),
      (Expected.ofValue v : Expected T E).hasValue = true ∧
      (Expected.ofValue v : Expected T E).valueAcc = some v ∧
      (Expected.ofUnexpected ⟨e⟩ : Expected T E).hasValue = false ∧
      (Expected.ofUnexpected ⟨e⟩ : Expected T E).errAcc = some e := by
  intro T E v e
  refine ⟨rfl, ?_, rfl, ?_⟩
  · simp [Expected.ofValue, Expected.valueAcc]
  · simp [Expected.ofUnexpected, Expected.errAcc]

/-- C3: `and_then` is bind over the success channel — on an ok state
holding `v` it returns `f v`; on an error state holding `e` it returns
the state built by `U(unexpect, error())`, with a result independent of
`f` (so `f` is not invoked). -/
theorem C3_and_then_bind_laws :
    ∀ (T E U : Type) (r : Expected T E) (f : T → Expected U E),
      (∀ v : T, r.hasValue = true → r.valueLive = some v →
        r.and_then f = f v) ∧
      (∀ e : E, r.hasValue = false → r.errorLive = some e →
        r.and_then f = Expected.unexpectCtor e ∧
        ∀ g : T → Expected U E, r.and_then f = r.and_then g) := by
  intro T E U r f
  obtain ⟨hv, vl, el⟩ := r
  constructor
  · rintro v rfl rfl
    simp [Expected.and_then]
  · rintro e rfl rfl
    refine ⟨?_, ?_⟩
    · simp [Expected.and_then]
    · intro g
      simp [Expected.and_then]

/-- Witness for C3 at concrete ok and error states. -/
theorem C3_and_then_bind_laws_witness :
    (Expected.ofValue 3 : Expected Nat Nat).and_then
        (fun v => Expected.ofValue (v + 1)) =
      (fun v => (Expected.ofValue (v + 1) : Expected Nat Nat)) 3 :=
  (C3_and_then_bind_laws Nat Nat Nat (Expected.ofValue 3)
      (fun v => Expected.ofValue (v + 1))).1 3 rfl rfl

/-- C4: `transform` maps the success channel — an ok state holding `v`
becomes an ok state holding `f v` (for a void-returning `f`, an ok
`expected<void, E>` with no payload), an error state propagates its
error with `f` not invoked; `transform_error` maps the error channel —
an error state holding `e` becomes an error state holding `f e`, an ok
state propagates its value unchanged with `f` not invoked. -/
theorem C4_transform_functor_laws :
    ∀ (T E U G : Type) (r : Expected T E) (f : T → U) (fv : T → Unit) (g : E → G),
      (∀ v : T, r.hasValue = true → r.valueLive = some v →
        r.transform f = Expected.inPlaceCtor (f v) ∧
        r.transformVoid fv = ExpectedVoid.mkDefault ∧
        r.transform_error g = Expected.inPlaceCtor v ∧
        ∀ g2 : E → G, r.transform_error g = r.transform_error g2) ∧
      (∀ e : E, r.hasValue = false → r.errorLive = some e →
        r.transform f = Expected.unexpectCtor e ∧
        (∀ f2 : T → U, r.transform f = r.transform f2) ∧
        r.transformVoid fv = ExpectedVoid.unexpectCtor e ∧
        r.transform_error g = Expected.unexpectCtor (g e)) := by
  intro T E U G r f fv g
  obtain ⟨hv, vl, el⟩ := r
  constructor
  · rintro v rfl rfl
    refine ⟨?_, ?_, ?_, ?_⟩
    · simp [Expected.transform]
    · simp [Expected.transformVoid]
    · simp [Expected.transform_error]
    · intro g2
      simp [Expected.transform_error]
  · rintro e rfl rfl
    refine ⟨?_, ?_, ?_, ?_⟩
    · simp [Expected.transform]
    · intro f2
      simp [Expected.transform]
    · simp [Expected.transformVoid]
    · simp [Expected.transform_error]

/-- Witness for C4 at a concrete ok state. -/
theorem C4_transform_functor_laws_witness :
    (Expected.ofValue 3 : Expected Nat Nat).transform (fun v => v + 1) =
      Expected.inPlaceCtor ((fun v => v + 1) 3) :=
  ((C4_transform_functor_laws Nat Nat Nat Nat (Expected.ofValue 3)
      (fun v => v + 1) (fun _ => ()) (fun e => e)).1 3 rfl rfl).1

/-- C5: on well-formed states `value_or` and `error_or` never hit a
violated assertion — `value_or` returns the value payload when ok and
otherwise the fallback converted to `T`, `error_or` returns the error
payload when in the error state and otherwise the fallback converted to
`E`; the rvalue overloads return the same results while leaving the
live payload moved-from instead of copied. -/
theorem C5_value_or_error_or_total :
    ∀ (T E U G : Type) (cT : U → T) (cE : G → E) (mvT : T → T) (mvE : E → E)
      (r : Expected T E) (dT : U) (dE : G),
      r.wf = true →
      ((r.value_or cT dT).isSome = true ∧
       (∀ v : T, r.hasValue = true → r.valueLive = some v →
         r.value_or cT dT = some v) ∧
       (r.hasValue = false → r.value_or cT dT = some (cT dT)) ∧
       (r.error_or cE dE).isSome = true ∧
       (∀ e : E, r.hasValue = false → r.errorLive = some e →
         r.error_or cE dE = some e) ∧
       (r.hasValue = true → r.error_or cE dE = some (cE dE)) ∧
       (Expected.value_or_rv mvT cT r dT).1 = r.value_or cT dT ∧
       (r.hasValue = true →
         (Expected.value_or_rv mvT cT r dT).2.valueLive = r.valueLive.map mvT) ∧
       (Expected.error_or_rv mvE cE r dE).1 = r.error_or cE dE ∧
       (r.hasValue = false →
         (Expected.error_or_rv mvE cE r dE).2.errorLive = r.errorLive.map mvE)) := by
  intro T E U G cT cE mvT mvE r dT dE h
  obtain ⟨hv, vl, el⟩ := r
  cases hv <;> cases vl <;> cases el <;>
    simp_all [Expected.wf, Expected.value_or, Expected.error_or,
      Expected.value_or_rv, Expected.error_or_rv,
      Expected.valueAcc, Expected.errAcc]

/-- Witness for C5 at a concrete error state. -/
theorem C5_value_or_error_or_total_witness :
    ((Expected.unexpectCtor 7 : Expected Nat Nat).value_or id 5).isSome = true :=
  (C5_value_or_error_or_total Nat Nat Nat Nat id id id id
      (Expected.unexpectCtor 7) 5 9 rfl).1

/-- C6: the `expected<void, E>` specialization supports no value query
in the ok state (all well-formed ok states are equal, carrying no data
beyond the tag); `andThen` invokes its zero-argument function exactly
when ok and propagates the error otherwise; `transform` likewise
invokes a zero-argument function when ok; `orElse` and `transformError`
act on the error channel as in `expected<T, E>`. -/
theorem C6_void_specialization :
    ∀ (E U G : Type) (r : ExpectedVoid E),
      (∀ s : ExpectedVoid E, r.wf = true → s.wf = true →
        r.hasValue = true → s.hasValue = true → r = s) ∧
      (∀ f : Unit → ExpectedVoid E, r.hasValue = true → r.and_then f = f ()) ∧
      (∀ (f : Unit → ExpectedVoid E) (e : E),
        r.hasValue = false → r.errorLive = some e →
        r.and_then f = ExpectedVoid.unexpectCtor e ∧
        ∀ g : Unit → ExpectedVoid E, r.and_then f = r.and_then g) ∧
      (∀ f : Unit → U, r.hasValue = true →
        r.transform f = Expected.inPlaceCtor (f ())) ∧
      (∀ (f : Unit → U) (e : E), r.hasValue = false → r.errorLive = some e →
        r.transform f = Expected.unexpectCtor e) ∧
      (∀ f : E → ExpectedVoid E, r.hasValue = true →
        r.or_else f = ExpectedVoid.mkDefault ∧
        ∀ g : E → ExpectedVoid E, r.or_else f = r.or_else g) ∧
      (∀ (f : E → ExpectedVoid E) (e : E),
        r.hasValue = false → r.errorLive = some e → r.or_else f = f e) ∧
      (∀ f : E → G, r.hasValue = true →
        r.transform_error f = ExpectedVoid.mkDefault ∧
        ∀ g : E → G, r.transform_error f = r.transform_error g) ∧
      (∀ (f : E → G) (e : E), r.hasValue = false → r.errorLive = some e →
        r.transform_error f = ExpectedVoid.unexpectCtor (f e)) := by
  intro E U G r
  obtain ⟨hv, el⟩ := r
  refine ⟨?_, ?_, ?_, ?_, ?_, ?_, ?_, ?_, ?_⟩
  · rintro ⟨hv2, el2⟩ h1 h2 rfl rfl
    cases el <;> cases el2 <;> simp_all [ExpectedVoid.wf]
  · rintro f rfl
    simp [ExpectedVoid.and_then]
  · rintro f e rfl rfl
    exact ⟨rfl, fun g => rfl⟩
  · rintro f rfl
    simp [ExpectedVoid.transform]
  · rintro f e rfl rfl
    rfl
  · rintro f rfl
    exact ⟨rfl, fun g => rfl⟩
  · rintro f e rfl rfl
    rfl
  · rintro f rfl
    exact ⟨rfl, fun g => rfl⟩
  · rintro f e rfl rfl
    rfl

/-- Witness for C6 at concrete states. -/
theorem C6_void_specialization_witness :
    (ExpectedVoid.unexpectCtor 4 : ExpectedVoid Nat).and_then
        (fun _ => ExpectedVoid.mkDefault) =
      ExpectedVoid.unexpectCtor 4 :=
  ((C6_void_specialization Nat Nat Nat (ExpectedVoid.unexpectCtor 4)).2.2.1
      (fun _ => ExpectedVoid.mkDefault) 4 rfl rfl).1

/-- C7: a default-constructed `status<E>` (and one constructed from
`nullerr`) satisfies `ok() = true`; a `status<E>` constructed directly
from an error value satisfies `ok() = false` and `error()` returns the
converted value — in particular, for a value of type `E` itself,
exactly that value. -/
theorem C7_status_construction :
    ∀ (E U : Type) (conv : U → E) (u : U) (e : E),
      (Status.mkDefault : Status E).ok = true ∧
      (Status.ofNullerr : Status E).ok = true ∧
      (Status.ofError conv u).ok = false ∧
      (Status.ofError conv u).errAcc = some (conv u) ∧
      (Status.ofError id e).errAcc = some e := by
  intro E U conv u e
  refine ⟨rfl, rfl, rfl, ?_, ?_⟩
  · simp [Status.ofError, Status.errAcc, Status.ok]
  · simp [Status.ofError, Status.errAcc, Status.ok]

/-- C8: after move construction from a well-formed `expected`, the
source still reports the same tag, still holds a constructed payload in
the channel that tag designates (now with moved-from contents), the
other channel stays dead, and the source remains well-formed, hence
destructible. -/
theorem C8_move_source_frame :
    ∀ (T E : Type) (mvT : T → T) (mvE : E → E) (o : Expected T E),
      o.wf = true →
      ((o.moveCtor mvT mvE).2.hasValue = o.hasValue ∧
       (o.hasValue = true →
         (o.moveCtor mvT mvE).2.valueLive = o.valueLive.map mvT ∧
         ((o.moveCtor mvT mvE).2.valueLive).isSome = true ∧
         (o.moveCtor mvT mvE).2.errorLive = none) ∧
       (o.hasValue = false →
         (o.moveCtor mvT mvE).2.errorLive = o.errorLive.map mvE ∧
         ((o.moveCtor mvT mvE).2.errorLive).isSome = true ∧
         (o.moveCtor mvT mvE).2.valueLive = none) ∧
       (o.moveCtor mvT mvE).2.wf = true) := by
  intro T E mvT mvE o h
  obtain ⟨hv, vl, el⟩ := o
  cases hv <;> cases vl <;> cases el <;>
    simp_all [Expected.wf, Expected.moveCtor]

/-- Witness for C8 at a concrete ok state. -/
theorem C8_move_source_frame_witness :
    ((Expected.ofValue 3 : Expected Nat Nat).moveCtor (fun _ => 0) id).2.wf
      = true :=
  (C8_move_source_frame Nat Nat (fun _ => 0) id (Expected.ofValue 3)
      rfl).2.2.2

/-- Helper: the transcribed `requires` clause, rewritten through de
Morgan in terms of the two aggregated whole-source checks. -/
theorem ConvCtorCaps.enabled_eq (c : ConvCtorCaps) :
    c.enabled = (c.tCtorFromU && c.eCtorFromG &&
      (c.tIsBool || !c.tFromWholeSource) && !c.unexpFromWholeSource) := by
  obtain ⟨t1, t2, t3, t4, t5, t6, t7, t8, t9, t10, t11, t12, t13, t14, t15⟩ := c
  simp [ConvCtorCaps.enabled, ConvCtorCaps.tFromWholeSource,
    ConvCtorCaps.unexpFromWholeSource, Bool.not_or, Bool.and_assoc]

/-- C9: the converting constructors of `expected<T, E>` from
`expected<U, G>` are disabled whenever `T` could be constructed from or
converted from the whole source object in any cv-ref form and `T` is not
`bool`; they are disabled whenever `unexpected<E>` could be constructed
from the whole source object, regardless of `T`; when `T` is `bool` the
`T`-from-source ambiguity checks are waived and only the element-wise
constructibility and the `unexpected<E>` checks remain; and an accepted
constructor copies the tag and copies/moves the source's live payload
into the matching payload of the new object. -/
theorem C9_converting_ctor_rules :
    (∀ c : ConvCtorCaps,
      (c.tIsBool = false → c.tFromWholeSource = true → c.enabled = false) ∧
      (c.unexpFromWholeSource = true → c.enabled = false) ∧
      (c.tIsBool = true →
        c.enabled = (c.tCtorFromU && c.eCtorFromG && !c.unexpFromWholeSource))) ∧
    (∀ (T E U G : Type) (cT : U → T) (cE : G → E) (mvU : U → U) (mvG : G → G)
      (o : Expected U G), o.wf = true →
      ((Expected.convCopyCtor cT cE o : Expected T E).hasValue = o.hasValue ∧
       (o.hasValue = true →
         (Expected.convCopyCtor cT cE o : Expected T E).valueLive =
           o.valueLive.map cT ∧
         (Expected.convCopyCtor cT cE o : Expected T E).errorLive = none) ∧
       (o.hasValue = false →
         (Expected.convCopyCtor cT cE o : Expected T E).errorLive =
           o.errorLive.map cE ∧
         (Expected.convCopyCtor cT cE o : Expected T E).valueLive = none) ∧
       (Expected.convCopyCtor cT cE o : Expected T E).wf = true ∧
       (Expected.convMoveCtor cT cE mvU mvG o).1 =
         (Expected.convCopyCtor cT cE o : Expected T E))) := by
  constructor
  · intro c
    refine ⟨?_, ?_, ?_⟩
    · intro h1 h2
      rw [ConvCtorCaps.enabled_eq]
      simp [h1, h2]
    · intro h
      rw [ConvCtorCaps.enabled_eq]
      simp [h]
    · intro h1
      rw [ConvCtorCaps.enabled_eq]
      simp [h1]
  · intro T E U G cT cE mvU mvG o h
    obtain ⟨hv, vl, el⟩ := o
    cases hv <;> cases vl <;> cases el <;>
      simp_all [Expected.wf, Expected.convCopyCtor, Expected.convMoveCtor]

/-- Witness for C9: a capability vector where `unexpected<E>` is
constructible from the whole source is rejected, and an accepted
conversion of a concrete error state copies tag and payload. -/
theorem C9_converting_ctor_rules_witness :
    ConvCtorCaps.enabled
        ⟨false, true, true, false, false, false, false, false, false, false,
         false, true, false, false, false⟩ = false ∧
    (Expected.convCopyCtor (fun u : Nat => u + 1) (fun g : Nat => g)
        (Expected.unexpectCtor 5 : Expected Nat Nat) : Expected Nat Nat).wf
      = true :=
  ⟨(C9_converting_ctor_rules.1
      ⟨false, true, true, false, false, false, false, false, false, false,
       false, true, false, false, false⟩).2.1 rfl,
   (C9_converting_ctor_rules.2 Nat Nat Nat Nat (fun u => u + 1) (fun g => g)
      id id (Expected.unexpectCtor 5) rfl).2.2.2.1⟩

/-- C10: in the legacy `extl::expected`, move assignment onto a distinct
object overwrites the tag with the source's tag and
placement-constructs the source's payload into the target's storage —
running no destructor on the payload the target previously held — and
self-assignment leaves the object completely unchanged. -/
theorem C10_legacy_move_assign :
    ∀ (T E : Type) (mvT : T → T) (mvE : E → E)
      (tgt src : LegacyExpected T E),
      ((LegacyExpected.moveAssign mvT mvE tgt src false).target.hasValue =
         src.hasValue ∧
       (src.hasValue = true →
         (LegacyExpected.moveAssign mvT mvE tgt src false).target.valueLive =
           src.valueLive ∧
         (LegacyExpected.moveAssign mvT mvE tgt src false).target.errorLive =
           none) ∧
       (src.hasValue = false →
         (LegacyExpected.moveAssign mvT mvE tgt src false).target.errorLive =
           src.errorLive ∧
         (LegacyExpected.moveAssign mvT mvE tgt src false).target.valueLive =
           none) ∧
       (LegacyExpected.moveAssign mvT mvE tgt src false).destroyedOldValue =
         false ∧
       (LegacyExpected.moveAssign mvT mvE tgt src false).destroyedOldError =
         false) ∧
      LegacyExpected.moveAssign mvT mvE tgt tgt true = ⟨tgt, tgt, false, false⟩ := by
  intro T E mvT mvE tgt src
  constructor
  · obtain ⟨hv, vl, el⟩ := src
    cases hv <;> simp [LegacyExpected.moveAssign]
  · rfl

/-- Witness for C10 at concrete states. -/
theorem C10_legacy_move_assign_witness :
    (LegacyExpected.moveAssign id id (⟨false, none, some 9⟩ : LegacyExpected Nat Nat)
        ⟨true, some 4, none⟩ false).destroyedOldError = false :=
  (C10_legacy_move_assign Nat Nat id id ⟨false, none, some 9⟩
      ⟨true, some 4, none⟩).1.2.2.2.2

end ExTL
